import Mathlib

/-!
Shallow embedding of the event timeline and filtering engine of the
nomadicml-geovis client (`App.jsx` and its helpers).  JavaScript numbers are
modelled as `ℚ` for geographic coordinates and as `Int` for millisecond
timestamps; JavaScript arrays become `List`, `null`/`undefined` becomes
`Option`.  Leaflet's `distanceTo` (spherical trigonometric distance, computed
in floating point) is kept abstract as an explicit `dist` parameter; no claim
depends on its concrete value.
-/

namespace Geovis

/-- Latitude/longitude pair as used by Leaflet (`.lat`/`.lng` accessors). -/
structure LatLng where
  lat : ℚ
  lng : ℚ
deriving DecidableEq, Repr

/-- The single drawn spatial shape: `L.Circle` (center plus radius in meters)
or `L.Polygon` (the first ring, `layer.getLatLngs()[0]`). -/
inductive Layer where
  | circle (center : LatLng) (radiusMeters : ℚ)
  | polygon (ring : List LatLng)
deriving DecidableEq, Repr

/-- Edge step of the ray-casting loop in `isPointInLayer` (source lines
93-98): `pcur` is `poly[i]`, `pprev` is `poly[j]`.  The JavaScript `&&`
short-circuits, so the division is only reached when the longitudes differ;
`ℚ` division by zero returns `0` but that branch is then dead, so the `Bool`
value agrees with the source. -/
def edgeCross (lat lng : ℚ) (pcur pprev : LatLng) : Bool :=
  (decide (pcur.lng > lng) != decide (pprev.lng > lng)) &&
    decide (lat <
      (pprev.lat - pcur.lat) * (lng - pcur.lng) / (pprev.lng - pcur.lng) + pcur.lat)

/-- The list of `(poly[i], poly[j])` pairs visited by the loop
`for (i = 0, j = poly.length - 1; i < poly.length; j = i++)`:
`j` is the cyclic predecessor of `i`, so the second components are the list
rotated by `length - 1`. -/
def edgeList (poly : List LatLng) : List (LatLng × LatLng) :=
  poly.zip (poly.rotate (poly.length - 1))

/-- Ray-casting parity test of `isPointInLayer` (source lines 90-100):
start with `inside = false` and toggle on each crossing edge. -/
def rayCastInside (lat lng : ℚ) (poly : List LatLng) : Bool :=
  (edgeList poly).foldl
    (fun inside e => if edgeCross lat lng e.1 e.2 then !inside else inside) false

/-- `isPointInLayer(lat, lng, layer)` (source lines 79-103): `null` layer means
every point passes; a circle tests `center.distanceTo([lat, lng]) <= radius`
with Leaflet's distance function abstracted as `dist`; a polygon runs the
ray-casting test on its first ring. -/
def isPointInLayer (dist : LatLng → LatLng → ℚ) (lat lng : ℚ) :
    Option Layer → Bool
  | none => true
  | some (.circle center radius) => decide (dist center ⟨lat, lng⟩ ≤ radius)
  | some (.polygon ring) => rayCastInside lat lng ring

/-! ### Events (GeoJSON features) and the filter pipeline -/

/-- GeoJSON geometry of a feature: `Point` carries `[lng, lat]` coordinates,
`LineString` a coordinate list (each entry `[lng, lat]`). -/
inductive Geometry where
  | point (lng lat : ℚ)
  | lineString (coords : List (ℚ × ℚ))
deriving DecidableEq, Repr

/-- A GeoJSON feature as consumed by the engine: `properties.id`,
`geometry`, `properties.timestamp` and the optional
`properties.timestamp_end` (absent on some events; JavaScript reads of a
missing field yield `undefined`, modelled as `none`). -/
structure Feature where
  id : String
  geometry : Geometry
  timestamp : Int
  timestamp_end : Option Int
deriving DecidableEq, Repr

/-- The anonymous spatial predicate used both by
`filterFeaturesBySpatialLayer` (source lines 131-135) and by the
`displayedData` memo (source lines 205-211): non-`Point` features never pass;
a `Point` passes iff `isPointInLayer(lat, lng, layer)`. -/
def passesSpatial (dist : LatLng → LatLng → ℚ) (layer : Option Layer)
    (f : Feature) : Bool :=
  match f.geometry with
  | .point lng lat => isPointInLayer dist lat lng layer
  | .lineString _ => false

/-- `filterFeaturesBySpatialLayer(features, layer)` (source lines 129-136):
with no layer the features pass through unchanged, otherwise only `Point`
features inside the layer are kept. -/
def filterFeaturesBySpatialLayer (dist : LatLng → LatLng → ℚ)
    (features : List Feature) (layer : Option Layer) : List Feature :=
  match layer with
  | none => features
  | some lay => features.filter (passesSpatial dist (some lay))

/-- The `displayedData` memo (source lines 197-218): `null` while no batch is
loaded; with no spatial layer the search-filtered data passes through; with a
layer, the ids of the `Point` features inside the layer are collected and the
features are filtered by membership of their id in that set. -/
def displayedData (dist : LatLng → LatLng → ℚ)
    (filteredData : Option (List Feature)) (spatialLayer : Option Layer) :
    Option (List Feature) :=
  match filteredData with
  | none => none
  | some fd =>
    match spatialLayer with
    | none => some fd
    | some lay =>
      let visibleIds := (fd.filter (passesSpatial dist (some lay))).map Feature.id
      some (fd.filter (fun f => visibleIds.contains f.id))

/-- Composition of the region-sync effect (source lines 303-321) with the
`displayedData` memo (source lines 197-218), as a pure function of the raw
event collection, the resolved search-id set and the active region.  Per the
data model, `searchResultIds = none` exactly when the query text is empty (the
empty-query branch of the effect resets `searchResults` to `null`), so the
`searchQuery.trim()` test of the source collapses onto the `searchResultIds`
match. -/
def computeDisplaySet (dist : LatLng → LatLng → ℚ) (rawEvents : List Feature)
    (searchResultIds : Option (List String)) (region : Option Layer) :
    List Feature :=
  let filtered : List Feature :=
    match searchResultIds with
    | none =>
      match region with
      | none => rawEvents
      | some _ => filterFeaturesBySpatialLayer dist rawEvents region
    | some ids =>
      filterFeaturesBySpatialLayer dist
        (rawEvents.filter (fun f => ids.contains f.id)) region
  (displayedData dist (some filtered) region).getD []

/-! ### Application state, playback clock and selection machine -/

/-- The engine-relevant `useState` cells of `App` (source lines 139-163). -/
structure AppState where
  data : Option (List Feature)
  filteredData : Option (List Feature)
  searchResults : Option (List String)
  searchQuery : String
  spatialLayer : Option Layer
  startTime : Int
  endTime : Int
  currentTime : Int
  isPlaying : Bool
  playbackSpeed : Int
  hasInteracted : Bool
  selectedId : Option String
deriving DecidableEq, Repr

/-- Initial state: a fresh session before any batch is loaded. -/
def st0 : AppState :=
  { data := none, filteredData := none, searchResults := none, searchQuery := ""
    spatialLayer := none, startTime := 0, endTime := 0, currentTime := 0
    isPlaying := false, playbackSpeed := 1, hasInteracted := false
    selectedId := none }

/-- `handleSeek(t)` (source lines 330-333): marks interaction and stores `t`
into `currentTime` as is — the handler itself performs no clamping. -/
def handleSeek (t : Int) (st : AppState) : AppState :=
  { st with hasInteracted := true, currentTime := t }

/-- `handleEventClick(id, time)` (source lines 323-328), ignoring the
heatmap-visibility toggle which is outside the engine. -/
def handleEventClick (id : String) (time : Int) (st : AppState) : AppState :=
  { st with hasInteracted := true, currentTime := time, selectedId := some id }

/-- The `onPlayPause` callback (source line 503). -/
def onPlayPause (st : AppState) : AppState :=
  { st with hasInteracted := true, isPlaying := !st.isPlaying }

/-- The `onReset` callback (source line 505). -/
def onReset (st : AppState) : AppState :=
  { st with isPlaying := false, currentTime := st.startTime, hasInteracted := false }

/-- The `onSpeedChange` callback (source line 506, wired to `setPlaybackSpeed`). -/
def onSpeedChange (s : Int) (st : AppState) : AppState :=
  { st with playbackSpeed := s }

/-- One firing of the 100ms play interval (source lines 352-367).  The
interval only exists while `isPlaying`, so a stopped state is unchanged.  The
updater checks the PREVIOUS value against `endTime`: at or past the end it
stops and rewinds to `startTime`, otherwise it adds `100 * playbackSpeed`. -/
def tick (st : AppState) : AppState :=
  if st.isPlaying then
    if st.currentTime ≥ st.endTime then
      { st with isPlaying := false, currentTime := st.startTime }
    else
      { st with currentTime := st.currentTime + 100 * st.playbackSpeed }
  else st

/-- `lastEvent.properties.timestamp_end || lastEvent.properties.timestamp`
(source line 245): JavaScript `||` falls through on `undefined` and on the
falsy value `0`. -/
def effectiveEnd (f : Feature) : Int :=
  match f.timestamp_end with
  | some te => if te = 0 then f.timestamp else te
  | none => f.timestamp

/-- The in-place sort `geoJson.features.sort((a, b) => a.properties.timestamp
- b.properties.timestamp)` (source line 241); JavaScript `Array.sort` is
stable and this comparator orders ascending by `timestamp`. -/
def sortByTs (features : List Feature) : List Feature :=
  features.mergeSort (fun a b => decide (a.timestamp ≤ b.timestamp))

/-- `handleVisualize` (source lines 221-261) with the HTTP exchange abstracted
into the `response` feature list.  The selection/search/region resets happen
before the fetch (lines 224-228); only a non-empty response installs the new
collection and clock range (lines 241-252).  `loading` and the batch history
are outside the engine. -/
def handleVisualize (st : AppState) (response : List Feature) : AppState :=
  if hne : sortByTs response = [] then
    { st with hasInteracted := false, selectedId := none
              searchQuery := "", spatialLayer := none }
  else
    { st with hasInteracted := false, selectedId := none
              searchQuery := "", spatialLayer := none
              startTime := ((sortByTs response).head hne).timestamp
              endTime := effectiveEnd ((sortByTs response).getLast hne) + 2000
              currentTime := ((sortByTs response).head hne).timestamp
              data := some (sortByTs response)
              filteredData := some (sortByTs response) }

/-- The synchronous part of the debounced search effect (source lines
263-300), which re-runs whenever `searchQuery` or `data` changes: with an
empty (trimmed) query and a loaded batch it restores `filteredData` to the
raw data and drops the cached search ids (lines 264-270); with a non-empty
query it only schedules the debounce timer, so the state is unchanged until
the timer fires. -/
def searchEffectSync (st : AppState) : AppState :=
  if st.searchQuery.trim = "" then
    match st.data with
    | some d => { st with filteredData := some d, searchResults := none }
    | none => st
  else st

/-- The active-window test of the selection effect (source lines 337-340):
`currentTime >= timestamp && currentTime <= timestamp_end`.  When
`timestamp_end` is absent the JavaScript comparison against `undefined` is
false. -/
def isActiveAt (t : Int) (f : Feature) : Bool :=
  decide (t ≥ f.timestamp) &&
    (match f.timestamp_end with
     | some te => decide (t ≤ te)
     | none => false)

/-- The selection effect (source lines 335-350) as a function from the
display set, current time, play flag and previous selection to the new
selection: while playing with candidates, the LAST active event of the
display set wins; with no candidates the selection is cleared; otherwise
(candidates present, clock stopped) it is left unchanged. -/
def selectionUpdate (features : List Feature) (currentTime : Int)
    (isPlaying : Bool) (selectedId : Option String) : Option String :=
  let activeEvents := features.filter (isActiveAt currentTime)
  match activeEvents.getLast? with
  | some latestEvent => if isPlaying then some latestEvent.id else selectedId
  | none => none

/-! ### The debounced search effect -/

/-- State touched by the debounced AI-search effect (source lines 263-300).
`pendingTimer` is the un-elapsed `setTimeout` with its captured query;
`inFlight` the queries whose fetch has been issued but not answered.  `data`
is non-optional because the search box is disabled until a batch loads
(source line 421). -/
structure SearchFx where
  query : String
  pendingTimer : Option String
  inFlight : List String
  searchResults : Option (List String)
  filteredData : Option (List Feature)
  data : List Feature
  spatialLayer : Option Layer
deriving DecidableEq, Repr

/-- A keystroke re-runs the effect: the cleanup (source line 299) clears any
pending debounce timer; an empty (trimmed) query restores `filteredData` to
the raw data and drops the cached search ids (lines 264-270); otherwise a new
1000ms timer capturing the new query is scheduled (line 272). -/
def applyKeystroke (st : SearchFx) (q : String) : SearchFx :=
  if q.trim = "" then
    { st with query := q, pendingTimer := none
              filteredData := some st.data, searchResults := none }
  else
    { st with query := q, pendingTimer := some q }

/-- The debounce timer elapses: the captured query's fetch is issued
(source lines 272-281). -/
def timerFire (st : SearchFx) : SearchFx :=
  match st.pendingTimer with
  | some q => { st with pendingTimer := none, inFlight := q :: st.inFlight }
  | none => st

/-- Arrival of a search response for `respQuery` (source lines 283-291): the
matching features are intersected with the spatial layer and installed.  The
handler never compares `respQuery` with the current query text. -/
def applyResponse (dist : LatLng → LatLng → ℚ) (st : SearchFx)
    (respQuery : String) (matchingIds : List String) : SearchFx :=
  let matched := st.data.filter (fun f => matchingIds.contains f.id)
  let spatiallyFiltered := filterFeaturesBySpatialLayer dist matched st.spatialLayer
  { st with inFlight := st.inFlight.erase respQuery
            searchResults := some matchingIds
            filteredData := some spatiallyFiltered }

/-- Modelled from the spec: `clamp(t, startTime, endTime)` (§4.3`seek`).
The source has no such helper; this definition exists to compare the code's
`handleSeek` against the spec's description. -/
def specClamp (t lo hi : Int) : Int := max lo (min t hi)

/-- Concrete stand-in for Leaflet's abstract distance function, used only to
instantiate counterexamples and witnesses. -/
def dist0 : LatLng → LatLng → ℚ := fun _ _ => 0

/-- Convenient constructor for clock-focused states. -/
def withClock (start endT cur : Int) (playing : Bool) (speed : Int) : AppState :=
  { st0 with startTime := start, endTime := endT, currentTime := cur
             isPlaying := playing, playbackSpeed := speed }

/-- The clock-range invariant of spec §3. -/
abbrev clockInv (st : AppState) : Prop :=
  st.startTime ≤ st.currentTime ∧ st.currentTime ≤ st.endTime

/-- A concrete point event used in witnesses and counterexamples. -/
def fA : Feature :=
  { id := "A", geometry := .point 0 0, timestamp := 0, timestamp_end := some 1000 }

/-- A second concrete point event overlapping `fA` with a later start. -/
def fB : Feature :=
  { id := "B", geometry := .point 2 2, timestamp := 500, timestamp_end := some 1500 }

/-- Search-effect state with a stale query in flight: the user has typed on to
"red car" while the fetch for "re" is still outstanding. -/
def stC8 : SearchFx :=
  { query := "red car", pendingTimer := none, inFlight := ["re"]
    searchResults := some ["A"], filteredData := some [fA]
    data := [fA], spatialLayer := none }

/-- App state with a live selection, query text and interaction flag, about
to be hit by a batch load. -/
def stC9 : AppState :=
  { st0 with selectedId := some "a", searchQuery := "x", hasInteracted := true }

/-- Like `stC9` but with a loaded batch and a populated search cache, so the
empty-load cascade through the search effect is observable. -/
def stC9b : AppState :=
  { stC9 with data := some [fA], filteredData := some []
              searchResults := some ["A"] }

/-- Event with the earliest start but the latest end timestamp. -/
def fLong : Feature :=
  { id := "L", geometry := .point 0 0, timestamp := 0, timestamp_end := some 10000 }

/-- Event with the latest start but an earlier end timestamp than `fLong`. -/
def fShort : Feature :=
  { id := "S", geometry := .point 1 1, timestamp := 5, timestamp_end := some 6000 }

/-- A `LineString` (Path) event, for the spatial-exclusion witness. -/
def fP : Feature :=
  { id := "P", geometry := .lineString [(0, 0), (1, 1)]
    timestamp := 0, timestamp_end := none }

/-! ## Helper lemmas -/

theorem countP_parity_succ (n : ℕ) :
    decide ((n + 1) % 2 = 1) = !decide (n % 2 = 1) := by
  rcases Nat.mod_two_eq_zero_or_one n with h | h <;> simp [Nat.add_mod, h]

theorem foldl_toggle_eq {α : Type} (p : α → Bool) (l : List α) (b : Bool) :
    l.foldl (fun ins e => if p e then !ins else ins) b =
      (b != decide (l.countP p % 2 = 1)) := by
  induction l generalizing b with
  | nil => simp
  | cons a t ih =>
    simp only [List.foldl_cons, List.countP_cons]
    by_cases h : p a
    · rw [if_pos h, ih]
      simp only [h, if_pos, if_true, countP_parity_succ]
      cases b <;> cases decide (t.countP p % 2 = 1) <;> rfl
    · rw [if_neg h, ih]
      simp [h]

theorem edgeList_rotate (poly : List LatLng) (k : ℕ) :
    edgeList (poly.rotate k) = (edgeList poly).rotate k := by
  unfold edgeList
  rw [List.length_rotate, List.rotate_rotate, Nat.add_comm k, ← List.rotate_rotate]
  have h : poly.length = (poly.rotate (poly.length - 1)).length := by
    rw [List.length_rotate]
  simpa [List.zip] using
    (List.zipWith_rotate_distrib Prod.mk poly (poly.rotate (poly.length - 1)) k h).symm

theorem rayCastInside_rotate (lat lng : ℚ) (poly : List LatLng) (k : ℕ) :
    rayCastInside lat lng (poly.rotate k) = rayCastInside lat lng poly := by
  unfold rayCastInside
  rw [foldl_toggle_eq, foldl_toggle_eq, edgeList_rotate,
    (List.rotate_perm (edgeList poly) k).countP_eq]

theorem head_rel_of_pairwise {α : Type} {R : α → α → Prop} (hrefl : ∀ a, R a a)
    {l : List α} (hp : l.Pairwise R) (h : l ≠ []) : ∀ b ∈ l, R (l.head h) b := by
  cases l with
  | nil => exact absurd rfl h
  | cons a t =>
    intro b hb
    rcases List.mem_cons.mp hb with rfl | hbt
    · exact hrefl b
    · exact (List.pairwise_cons.mp hp).1 b hbt

theorem rel_getLast_of_pairwise {α : Type} {R : α → α → Prop} (hrefl : ∀ a, R a a)
    {l : List α} (hp : l.Pairwise R) (h : l ≠ []) : ∀ b ∈ l, R b (l.getLast h) := by
  induction l with
  | nil => exact absurd rfl h
  | cons a t ih =>
    intro b hb
    cases t with
    | nil =>
      rcases List.mem_cons.mp hb with rfl | hbt
      · exact hrefl b
      · exact absurd hbt (List.not_mem_nil b)
    | cons c u =>
      have hp' := List.pairwise_cons.mp hp
      rw [List.getLast_cons (List.cons_ne_nil c u)]
      rcases List.mem_cons.mp hb with rfl | hbt
      · exact hp'.1 _ (List.getLast_mem (List.cons_ne_nil c u))
      · exact ih hp'.2 (List.cons_ne_nil c u) b hbt

theorem sortByTs_perm (l : List Feature) : List.Perm (sortByTs l) l :=
  List.mergeSort_perm l _

theorem sortByTs_pairwise (l : List Feature) :
    (sortByTs l).Pairwise (fun a b => a.timestamp ≤ b.timestamp) := by
  have h := @List.sorted_mergeSort Feature
    (fun a b => decide (a.timestamp ≤ b.timestamp))
    (fun a b c hab hbc => by
      simp only [decide_eq_true_eq] at *
      exact le_trans hab hbc)
    (fun a b => by
      simp only [Bool.or_eq_true, decide_eq_true_eq]
      exact le_total a.timestamp b.timestamp) l
  exact h.imp (fun hab => by simpa using hab)

theorem tick_stopped {st : AppState} (h : st.isPlaying = false) : tick st = st := by
  simp [tick, h]

theorem tick_playing_ge {st : AppState} (hp : st.isPlaying = true)
    (hge : st.currentTime ≥ st.endTime) :
    tick st = { st with isPlaying := false, currentTime := st.startTime } := by
  unfold tick
  rw [if_pos hp, if_pos hge]

theorem tick_playing_lt {st : AppState} (hp : st.isPlaying = true)
    (hge : ¬ st.currentTime ≥ st.endTime) :
    tick st = { st with currentTime := st.currentTime + 100 * st.playbackSpeed } := by
  unfold tick
  rw [if_pos hp, if_neg hge]

theorem trim_nil : "".trim = "" := by
  show ("".toSubstring.trim.toString = "")
  rw [String.toSubstring, Substring.trim, Substring.takeWhileAux]
  have hsz : String.utf8ByteSize.go [] = 0 := rfl
  simp only [String.endPos, String.utf8ByteSize, hsz]
  rw [dif_neg (by decide)]
  rw [Substring.takeRightWhileAux]
  rw [dif_neg (by decide)]
  rfl

theorem handleVisualize_empty (st : AppState) :
    handleVisualize st [] =
      { st with hasInteracted := false, selectedId := none
                searchQuery := "", spatialLayer := none } := by
  unfold handleVisualize
  rw [dif_pos (by rw [sortByTs, List.mergeSort_nil])]

theorem sortByTs_of_sorted {l : List Feature}
    (h : l.Pairwise (fun a b => a.timestamp ≤ b.timestamp)) : sortByTs l = l := by
  apply List.mergeSort_of_sorted
  exact h.imp (fun hab => by simpa using hab)

theorem handleVisualize_nonempty (st : AppState) (resp : List Feature)
    (hs : sortByTs resp ≠ []) :
    handleVisualize st resp =
      { st with hasInteracted := false, selectedId := none
                searchQuery := "", spatialLayer := none
                startTime := ((sortByTs resp).head hs).timestamp
                endTime := effectiveEnd ((sortByTs resp).getLast hs) + 2000
                currentTime := ((sortByTs resp).head hs).timestamp
                data := some (sortByTs resp)
                filteredData := some (sortByTs resp) } := by
  unfold handleVisualize
  rw [dif_neg hs]

/-! ## Claims -/

/-- Claim C7: for every polygon (in particular every simple one) and every
test point, `pointInRegion` (the code's `isPointInLayer`) returns the same
result when the polygon's vertex list is cyclically rotated, and with
`region = None` it returns true for every point. -/
theorem c7_geometry_invariances :
    (∀ (dist : LatLng → LatLng → ℚ) (lat lng : ℚ) (poly : List LatLng) (k : ℕ),
        isPointInLayer dist lat lng (some (Layer.polygon (poly.rotate k))) =
          isPointInLayer dist lat lng (some (Layer.polygon poly))) ∧
    (∀ (dist : LatLng → LatLng → ℚ) (lat lng : ℚ),
        isPointInLayer dist lat lng none = true) := by
  refine ⟨fun dist lat lng poly k => ?_, fun dist lat lng => rfl⟩
  simp [isPointInLayer, rayCastInside_rotate]

/-- Claim C5: the display set is a pure function of
`(rawEvents, searchResultIds, region)` — two calls with identical inputs give
identical ordered output — and computing it with `region = None` yields
exactly the search-filtered set, so applying a region and then removing it
restores the pre-region search-filtered set. -/
theorem c5_display_set_pipeline :
    (∀ (dist : LatLng → LatLng → ℚ) (raw : List Feature)
        (sr : Option (List String)) (region : Option Layer),
        computeDisplaySet dist raw sr region = computeDisplaySet dist raw sr region) ∧
    (∀ (dist : LatLng → LatLng → ℚ) (raw : List Feature) (sr : Option (List String)),
        computeDisplaySet dist raw sr none =
          match sr with
          | none => raw
          | some ids => raw.filter (fun f => ids.contains f.id)) := by
  refine ⟨fun _ _ _ _ => rfl, fun dist raw sr => ?_⟩
  cases sr <;> rfl

/-- Claim C4 counterexample: `handleSeek` stores its argument without
clamping, so seeking to 20 on the clock `[0, 10]` leaves `currentTime = 20`,
not `clamp(20, 0, 10) = 10`. -/
theorem c4_counterexample :
    (handleSeek 20 (withClock 0 10 5 false 1)).currentTime = 20 ∧
    specClamp 20 0 10 = 10 ∧
    (handleSeek 20 (withClock 0 10 5 false 1)).currentTime ≠ specClamp 20 0 10 := by
  decide

/-- Claim C4 amended: `seek(t)` sets `currentTime` to exactly `t` (the
handler performs no clamping; the range-input UI is what keeps `t` in range)
and marks `hasInteracted`; consequently the read value agrees with
`clamp(t, startTime, endTime)` precisely when `t` already lies in
`[startTime, endTime]`. -/
theorem c4_seek_amended (st : AppState) (t : Int) :
    (handleSeek t st).currentTime = t ∧
    (handleSeek t st).hasInteracted = true ∧
    (st.startTime ≤ t → t ≤ st.endTime →
      (handleSeek t st).currentTime = specClamp t st.startTime st.endTime) := by
  refine ⟨rfl, rfl, fun h1 h2 => ?_⟩
  have h : specClamp t st.startTime st.endTime = t := by
    unfold specClamp
    rw [min_eq_left h2, max_eq_right h1]
  simp [handleSeek, h]

/-- Witness for the amended C4 at a concrete in-range seek. -/
theorem c4_seek_witness :
    (withClock 0 1000 0 false 1).startTime ≤ 500 ∧
    (handleSeek 500 (withClock 0 1000 0 false 1)).currentTime =
      specClamp 500 (withClock 0 1000 0 false 1).startTime
        (withClock 0 1000 0 false 1).endTime :=
  ⟨by decide, (c4_seek_amended (withClock 0 1000 0 false 1) 500).2.2
    (by decide) (by decide)⟩

/-- Claim C3 counterexample: from `currentTime = endTime - 1 = 999` with
speed 1, the next tick's value `999 + 100 = 1099` exceeds `endTime = 1000`,
yet the tick keeps playing and stores the overshoot instead of stopping and
rewinding (the code tests the previous value, not the new one). -/
theorem c3_counterexample :
    (tick (withClock 0 1000 999 true 1)).isPlaying = true ∧
    (tick (withClock 0 1000 999 true 1)).currentTime = 1099 ∧
    (1000 : Int) < (tick (withClock 0 1000 999 true 1)).currentTime := by
  decide

/-- Claim C3 amended: a tick stops and rewinds only when the PREVIOUS
`currentTime` already reached `endTime`; otherwise it adds
`100 * speed`, possibly overshooting `endTime`.  From
`currentTime = endTime - 1` with any speed ≥ 1, the first tick overshoots to
`endTime - 1 + 100 * speed` while still playing, the second tick yields
`(isPlaying = false, currentTime = startTime)`, and that stopped state is
reached exactly once: every later tick leaves it unchanged. -/
theorem c3_tick_rollover_amended (start endT speed : Int) (hspeed : 1 ≤ speed) :
    (tick (withClock start endT (endT - 1) true speed)).currentTime
        = endT - 1 + 100 * speed ∧
    (tick (withClock start endT (endT - 1) true speed)).isPlaying = true ∧
    endT < (tick (withClock start endT (endT - 1) true speed)).currentTime ∧
    tick (tick (withClock start endT (endT - 1) true speed))
        = withClock start endT start false speed ∧
    ∀ n : ℕ, tick^[n] (tick (tick (withClock start endT (endT - 1) true speed)))
        = tick (tick (withClock start endT (endT - 1) true speed)) := by
  have hlt : ¬ (endT - 1 ≥ endT) := by omega
  have h1 : tick (withClock start endT (endT - 1) true speed)
      = { withClock start endT (endT - 1) true speed with
          currentTime := endT - 1 + 100 * speed } :=
    tick_playing_lt rfl hlt
  have hge : endT - 1 + 100 * speed ≥ endT := by omega
  have h2 : tick (tick (withClock start endT (endT - 1) true speed))
      = withClock start endT start false speed := by
    rw [h1]
    exact tick_playing_ge rfl hge
  refine ⟨by rw [h1], by rw [h1]; rfl, ?_, h2, fun n => ?_⟩
  · rw [h1]
    show endT < endT - 1 + 100 * speed
    omega
  · rw [h2]
    exact Function.iterate_fixed (tick_stopped rfl) n

/-- Witness for the amended C3 at `start = 0`, `end = 1000`, speed 2. -/
theorem c3_tick_rollover_witness :
    (1 : Int) ≤ 2 ∧
    (tick (withClock 0 1000 999 true 2)).currentTime = 1199 ∧
    tick (tick (withClock 0 1000 999 true 2)) = withClock 0 1000 0 false 2 ∧
    tick^[5] (tick (tick (withClock 0 1000 999 true 2)))
      = tick (tick (withClock 0 1000 999 true 2)) :=
  ⟨by decide, (c3_tick_rollover_amended 0 1000 2 (by decide)).1,
    (c3_tick_rollover_amended 0 1000 2 (by decide)).2.2.2.1,
    (c3_tick_rollover_amended 0 1000 2 (by decide)).2.2.2.2 5⟩

/-- Claim C2 counterexample: the state `start = 0`, `end = 2150`,
`currentTime = 2000`, playing at speed 10 (reachable by loading a batch whose
range is 2150ms and ticking) satisfies the invariant, but one tick moves
`currentTime` to 3000 > `endTime`, violating it. -/
theorem c2_counterexample :
    clockInv (withClock 0 2150 2000 true 10) ∧
    ¬ clockInv (tick (withClock 0 2150 2000 true 10)) := by
  decide

/-- Claim C2 amended: `startTime ≤ currentTime ≤ endTime` is preserved by
play/pause, reset and speed change, and by `seek(t)` whenever its argument is
already in range (the handler stores `t` unclamped); a tick preserves the
lower bound but can leave `currentTime` as much as `100 * speed - 1` above
`endTime`; a load of a non-empty collection whose events satisfy
`timestamp ≤ effectiveEnd` re-establishes the invariant. -/
theorem c2_clock_invariant_amended (st : AppState) (hinv : clockInv st) :
    clockInv (onPlayPause st) ∧
    clockInv (onReset st) ∧
    (∀ s : Int, clockInv (onSpeedChange s st)) ∧
    (∀ t : Int, st.startTime ≤ t → t ≤ st.endTime → clockInv (handleSeek t st)) ∧
    (0 < st.playbackSpeed →
      st.startTime ≤ (tick st).currentTime ∧
      (tick st).currentTime < st.endTime + 100 * st.playbackSpeed) ∧
    (∀ resp : List Feature, resp ≠ [] →
      (∀ f ∈ resp, f.timestamp ≤ effectiveEnd f) →
      clockInv (handleVisualize st resp)) := by
  obtain ⟨hlo, hhi⟩ := hinv
  refine ⟨⟨hlo, hhi⟩, ⟨le_refl _, le_trans hlo hhi⟩, fun s => ⟨hlo, hhi⟩,
    fun t h1 h2 => ⟨h1, h2⟩, fun hsp => ?_, fun resp hresp hle => ?_⟩
  · cases hp : st.isPlaying with
    | false =>
      rw [tick_stopped hp]
      exact ⟨hlo, by omega⟩
    | true =>
      by_cases hge : st.currentTime ≥ st.endTime
      · rw [tick_playing_ge hp hge]
        refine ⟨le_refl _, ?_⟩
        show st.startTime < st.endTime + 100 * st.playbackSpeed
        omega
      · rw [tick_playing_lt hp hge]
        constructor
        · show st.startTime ≤ st.currentTime + 100 * st.playbackSpeed
          omega
        · show st.currentTime + 100 * st.playbackSpeed
            < st.endTime + 100 * st.playbackSpeed
          omega
  · have hs : sortByTs resp ≠ [] := by
      intro h
      apply hresp
      have hlen := (sortByTs_perm resp).length_eq
      rw [h] at hlen
      exact List.length_eq_zero.mp hlen.symm
    rw [handleVisualize_nonempty st resp hs]
    refine ⟨le_refl _, ?_⟩
    have hmem : (sortByTs resp).getLast hs ∈ sortByTs resp := List.getLast_mem hs
    have hheadle : ((sortByTs resp).head hs).timestamp
        ≤ ((sortByTs resp).getLast hs).timestamp :=
      head_rel_of_pairwise (R := fun a b : Feature => a.timestamp ≤ b.timestamp)
        (fun a => le_refl a.timestamp) (sortByTs_pairwise resp) hs _ hmem
    have hlast : ((sortByTs resp).getLast hs).timestamp
        ≤ effectiveEnd ((sortByTs resp).getLast hs) :=
      hle _ ((sortByTs_perm resp).mem_iff.mp hmem)
    show ((sortByTs resp).head hs).timestamp
        ≤ effectiveEnd ((sortByTs resp).getLast hs) + 2000
    omega

/-- Witness for the amended C2 at a concrete playing state and a one-event
load. -/
theorem c2_clock_invariant_witness :
    clockInv (withClock 0 1000 500 true 1) ∧
    clockInv (onReset (withClock 0 1000 500 true 1)) ∧
    clockInv (handleSeek 700 (withClock 0 1000 500 true 1)) ∧
    clockInv (handleVisualize (withClock 0 1000 500 true 1) [fA]) :=
  ⟨⟨by decide, by decide⟩,
    (c2_clock_invariant_amended (withClock 0 1000 500 true 1)
      ⟨by decide, by decide⟩).2.1,
    (c2_clock_invariant_amended (withClock 0 1000 500 true 1)
      ⟨by decide, by decide⟩).2.2.2.1 700 (by decide) (by decide),
    (c2_clock_invariant_amended (withClock 0 1000 500 true 1)
      ⟨by decide, by decide⟩).2.2.2.2.2 [fA] (by decide) (by decide)⟩

/-- Claim C9 counterexample: a load that returns zero events still clears the
selection, the interaction flag and the query text, because `handleVisualize`
resets them before the fetch. -/
theorem c9_counterexample :
    stC9.selectedId = some "a" ∧
    (handleVisualize stC9 []).selectedId = none ∧
    (handleVisualize stC9 []).selectedId ≠ stC9.selectedId ∧
    (handleVisualize stC9 []).searchQuery ≠ stC9.searchQuery ∧
    (handleVisualize stC9 []).hasInteracted ≠ stC9.hasInteracted := by
  rw [handleVisualize_empty]
  decide

/-- Claim C9 amended: a batch load that returns zero events leaves the event
collection and the clock fields untouched, but the resets performed when the
load was initiated persist — `selectedId := None`, `hasInteracted := false`,
`searchQuery := ""`, `region := None` — and resetting the query re-runs the
search effect, which drops the cached search ids and restores `filteredData`
to the raw data whenever a batch is loaded (with no batch loaded,
`searchResults` and `filteredData` are untouched). -/
theorem c9_empty_load_amended (st : AppState) :
    (searchEffectSync (handleVisualize st [])).data = st.data ∧
    (searchEffectSync (handleVisualize st [])).startTime = st.startTime ∧
    (searchEffectSync (handleVisualize st [])).endTime = st.endTime ∧
    (searchEffectSync (handleVisualize st [])).currentTime = st.currentTime ∧
    (searchEffectSync (handleVisualize st [])).isPlaying = st.isPlaying ∧
    (searchEffectSync (handleVisualize st [])).playbackSpeed = st.playbackSpeed ∧
    (searchEffectSync (handleVisualize st [])).selectedId = none ∧
    (searchEffectSync (handleVisualize st [])).hasInteracted = false ∧
    (searchEffectSync (handleVisualize st [])).searchQuery = "" ∧
    (searchEffectSync (handleVisualize st [])).spatialLayer = none ∧
    (st.data = none →
      (searchEffectSync (handleVisualize st [])).searchResults = st.searchResults ∧
      (searchEffectSync (handleVisualize st [])).filteredData = st.filteredData) ∧
    (∀ d, st.data = some d →
      (searchEffectSync (handleVisualize st [])).searchResults = none ∧
      (searchEffectSync (handleVisualize st [])).filteredData = some d) := by
  rcases hd : st.data with _ | d <;>
    simp [handleVisualize_empty, searchEffectSync, trim_nil, hd]

/-- Witness for the amended C9: on a state with a loaded batch and a search
cache, the empty load keeps `data` but clears the cache and restores
`filteredData` to the raw data. -/
theorem c9_empty_load_witness :
    stC9b.data = some [fA] ∧
    (searchEffectSync (handleVisualize stC9b [])).searchResults = none ∧
    (searchEffectSync (handleVisualize stC9b [])).filteredData = some [fA] :=
  ⟨rfl,
    ((c9_empty_load_amended stC9b).2.2.2.2.2.2.2.2.2.2.2 [fA] rfl).1,
    ((c9_empty_load_amended stC9b).2.2.2.2.2.2.2.2.2.2.2 [fA] rfl).2⟩

/-- Claim C8 counterexample: with the fetch for "re" still in flight and the
current query already "red car", the arrival of the stale response is NOT
discarded — it overwrites `filteredData` and `searchResults`. -/
theorem c8_counterexample :
    "re" ≠ stC8.query ∧
    (applyResponse dist0 stC8 "re" []).filteredData ≠ stC8.filteredData ∧
    (applyResponse dist0 stC8 "re" []).searchResults ≠ stC8.searchResults := by
  decide

/-- Claim C8 amended: a new keystroke cancels any pending debounce timer
(replacing it by a timer for the new query, or by none for an empty query),
but a search response that arrives is applied unconditionally — the handler
installs the response ids and the spatially-filtered matches without ever
comparing the response's originating query with the current query text, as
the last conjunct (invariance of the handler under changes of the current
query) makes precise. -/
theorem c8_search_amended (dist : LatLng → LatLng → ℚ) (st : SearchFx)
    (q q2 : String) (ids : List String) :
    ((applyKeystroke st q2).pendingTimer
        = if q2.trim = "" then none else some q2) ∧
    (applyResponse dist st q ids).searchResults = some ids ∧
    ((applyResponse dist st q ids).filteredData =
      some (filterFeaturesBySpatialLayer dist
        (st.data.filter (fun f => ids.contains f.id)) st.spatialLayer)) ∧
    applyResponse dist { st with query := q2 } q ids =
      { applyResponse dist st q ids with query := q2 } := by
  refine ⟨?_, rfl, rfl, rfl⟩
  unfold applyKeystroke
  by_cases h : q2.trim = "" <;> simp [h]

/-- Claim C1: on a display set ordered ascending by start time (as every
display set produced by a load is), the selection effect while playing picks
the last active event — the candidate whose start time is maximal, ties
resolved by display-set position — and while stopped it leaves a previous
selection untouched whenever at least one candidate exists. -/
theorem c1_selection_asymmetry (features : List Feature) (t : Int)
    (sel : Option String)
    (hsorted : features.Pairwise (fun a b => a.timestamp ≤ b.timestamp))
    (hne : features.filter (isActiveAt t) ≠ []) :
    (selectionUpdate features t true sel =
        some (((features.filter (isActiveAt t)).getLast hne).id) ∧
      ∀ g ∈ features.filter (isActiveAt t),
        g.timestamp ≤ ((features.filter (isActiveAt t)).getLast hne).timestamp) ∧
    selectionUpdate features t false sel = sel := by
  have hps : (features.filter (isActiveAt t)).Pairwise
      (fun a b => a.timestamp ≤ b.timestamp) := hsorted.filter _
  have hgl := List.getLast?_eq_getLast (features.filter (isActiveAt t)) hne
  refine ⟨⟨?_, ?_⟩, ?_⟩
  · simp only [selectionUpdate]
    rw [hgl]
    simp
  · exact rel_getLast_of_pairwise
      (R := fun a b : Feature => a.timestamp ≤ b.timestamp)
      (fun a => le_refl a.timestamp) hps hne
  · simp only [selectionUpdate]
    rw [hgl]
    simp

/-- Witness for C1: the spec's own scenario — events A `[0,1000]` and B
`[500,1500]` at time 700: playing selects B, stopped keeps the clicked A. -/
theorem c1_selection_witness :
    List.Pairwise (fun a b => a.timestamp ≤ b.timestamp) [fA, fB] ∧
    selectionUpdate [fA, fB] 700 true (some "A") = some "B" ∧
    selectionUpdate [fA, fB] 700 false (some "A") = some "A" :=
  ⟨by decide,
    ((c1_selection_asymmetry [fA, fB] 700 (some "A") (by decide)
      (by decide)).1.1).trans (by decide),
    (c1_selection_asymmetry [fA, fB] 700 (some "A") (by decide) (by decide)).2⟩

/-- Claim C6: while a region is active and event ids are distinct (the data
model makes them unique), a `Point` event is in the display set iff its
location passes the spatial test, and no `LineString` (`Path`) event is ever
in it; the standalone `filterFeaturesBySpatialLayer` obeys the same
characterisation. -/
theorem c6_spatial_point_membership (dist : LatLng → LatLng → ℚ)
    (fd : List Feature) (lay : Layer)
    (hnd : (fd.map Feature.id).Nodup) :
    (∀ f, f ∈ (displayedData dist (some fd) (some lay)).getD [] ↔
        (f ∈ fd ∧ passesSpatial dist (some lay) f = true)) ∧
    (∀ f, f ∈ filterFeaturesBySpatialLayer dist fd (some lay) ↔
        (f ∈ fd ∧ passesSpatial dist (some lay) f = true)) ∧
    (∀ f ∈ fd, (∃ coords, f.geometry = Geometry.lineString coords) →
        f ∉ (displayedData dist (some fd) (some lay)).getD []) := by
  have hmain : ∀ f, f ∈ (displayedData dist (some fd) (some lay)).getD [] ↔
      (f ∈ fd ∧ passesSpatial dist (some lay) f = true) := by
    intro f
    simp only [displayedData, Option.getD_some, List.mem_filter]
    constructor
    · rintro ⟨hf, hc⟩
      refine ⟨hf, ?_⟩
      rw [List.contains_iff_exists_mem_beq] at hc
      obtain ⟨gid, hgid, hbeq⟩ := hc
      obtain ⟨g, hg, rfl⟩ := List.mem_map.mp hgid
      obtain ⟨hgfd, hgpass⟩ := List.mem_filter.mp hg
      have : f = g := List.inj_on_of_nodup_map hnd hf hgfd
        (by simpa using hbeq)
      rw [this]
      exact hgpass
    · rintro ⟨hf, hpass⟩
      refine ⟨hf, ?_⟩
      rw [List.contains_iff_exists_mem_beq]
      exact ⟨f.id, List.mem_map_of_mem Feature.id
        (List.mem_filter.mpr ⟨hf, hpass⟩), by simp⟩
  refine ⟨hmain, fun f => ?_, fun f hf hline hmem => ?_⟩
  · simp only [filterFeaturesBySpatialLayer, List.mem_filter]
  · obtain ⟨coords, hcoords⟩ := hline
    have := (hmain f).mp hmem
    rw [passesSpatial, hcoords] at this
    exact absurd this.2 (by simp)

/-- Witness for C6: a square polygon around the origin keeps the point event
`fA` and drops every `LineString` feature. -/
theorem c6_spatial_witness :
    (([fA, fP].map Feature.id).Nodup) ∧
    (fA ∈ (displayedData dist0 (some [fA, fP])
        (some (Layer.circle ⟨0, 0⟩ 5))).getD [] ↔
      (fA ∈ [fA, fP] ∧
        passesSpatial dist0 (some (Layer.circle ⟨0, 0⟩ 5)) fA = true)) :=
  ⟨by decide,
    (c6_spatial_point_membership dist0 [fA, fP]
      (Layer.circle ⟨0, 0⟩ 5) (by decide)).1 fA⟩

/-- Claim C10: after a non-empty load, `startTime` is the smallest event
start timestamp; `endTime` is `effectiveEnd` (the `timestamp_end || timestamp`
fallback) of an event of maximal start timestamp, plus 2000ms; and on the
concrete batch `[fLong, fShort]` this makes `endTime = 8000` strictly smaller
than `fLong`'s end timestamp 10000, so an interval can extend past
`endTime`. -/
theorem c10_clock_range_derivation (st : AppState) (resp : List Feature)
    (hresp : resp ≠ []) :
    ((handleVisualize st resp).startTime ∈ resp.map Feature.timestamp ∧
      ∀ f ∈ resp, (handleVisualize st resp).startTime ≤ f.timestamp) ∧
    (∃ f ∈ resp, (∀ g ∈ resp, g.timestamp ≤ f.timestamp) ∧
      (handleVisualize st resp).endTime = effectiveEnd f + 2000) ∧
    ((handleVisualize st0 [fLong, fShort]).endTime = 8000 ∧
      ∃ f ∈ ([fLong, fShort] : List Feature),
        (handleVisualize st0 [fLong, fShort]).endTime < effectiveEnd f) := by
  have hs : sortByTs resp ≠ [] := by
    intro h
    apply hresp
    have hlen := (sortByTs_perm resp).length_eq
    rw [h] at hlen
    exact List.length_eq_zero.mp hlen.symm
  have hD : sortByTs [fLong, fShort] = [fLong, fShort] :=
    sortByTs_of_sorted (by decide)
  have hsD : sortByTs [fLong, fShort] ≠ [] := by
    rw [hD]
    exact List.cons_ne_nil _ _
  have hlastD : (sortByTs [fLong, fShort]).getLast hsD = fShort := by
    have h1 := List.getLast?_eq_getLast (sortByTs [fLong, fShort]) hsD
    have h2 : (sortByTs [fLong, fShort]).getLast? = some fShort := by
      rw [hD]
      rfl
    exact Option.some.inj (h1.symm.trans h2)
  rw [handleVisualize_nonempty st resp hs,
    handleVisualize_nonempty st0 [fLong, fShort] hsD]
  refine ⟨⟨?_, ?_⟩, ?_, ?_, ?_⟩
  · show ((sortByTs resp).head hs).timestamp ∈ resp.map Feature.timestamp
    exact List.mem_map_of_mem Feature.timestamp
      ((sortByTs_perm resp).mem_iff.mp (List.head_mem hs))
  · intro f hf
    show ((sortByTs resp).head hs).timestamp ≤ f.timestamp
    exact head_rel_of_pairwise
      (R := fun a b : Feature => a.timestamp ≤ b.timestamp)
      (fun a => le_refl a.timestamp) (sortByTs_pairwise resp) hs f
      ((sortByTs_perm resp).mem_iff.mpr hf)
  · refine ⟨(sortByTs resp).getLast hs,
      (sortByTs_perm resp).mem_iff.mp (List.getLast_mem hs), fun g hg => ?_, rfl⟩
    exact rel_getLast_of_pairwise
      (R := fun a b : Feature => a.timestamp ≤ b.timestamp)
      (fun a => le_refl a.timestamp) (sortByTs_pairwise resp) hs g
      ((sortByTs_perm resp).mem_iff.mpr hg)
  · show effectiveEnd ((sortByTs [fLong, fShort]).getLast hsD) + 2000 = 8000
    rw [hlastD]
    rfl
  · refine ⟨fLong, List.mem_cons_self _ _, ?_⟩
    show effectiveEnd ((sortByTs [fLong, fShort]).getLast hsD) + 2000
      < effectiveEnd fLong
    rw [hlastD]
    decide

/-- Witness for C10: a singleton load, with the hypotheses discharged
concretely. -/
theorem c10_clock_range_witness :
    ([fA] : List Feature) ≠ [] ∧
    (handleVisualize st0 [fA]).startTime ∈ [fA].map Feature.timestamp :=
  ⟨by decide, (c10_clock_range_derivation st0 [fA] (by decide)).1.1⟩

end Geovis
